import Mathlib

/-!
Verification development for the Sentinel-2 scene asset resolver of this
repository (source: `src/titiler/core/titiler/core/rt_sentinel.py`).

The Python code is shallowly embedded as executable Lean definitions:

* `pyFormat` models Python `str.format(**mapping)` for the subset of the
  template mini-language that the source templates use: literal characters
  and `{field}` placeholders (no escaped braces, no conversions, no format
  specs occur in the source templates).  A missing field is a `KeyError`.
* `FetchOutcome` models the outcome of the external-world part of
  `__attrs_post_init__`'s `try` block (the `get_object` network fetch,
  `json.loads`, key extraction, `featureBounds` and `CRS.from_user_input`).
  `failEarly` is any failure before `self.bounds` is assigned (network
  error, malformed JSON, missing `tileDataGeometry`, `featureBounds`
  failure); `failAfterBounds` is a failure after `self.bounds` was assigned
  but before `self.crs` was reassigned (e.g. a geometry without usable CRS
  keys); `success` is the whole block succeeding.
* `BandsVal` models the dynamically-typed Python value of `self.bands`,
  which the source sets either to the empty string `""` or to the tuple
  `actual_l1c_bands`; Python `in` means substring search on the former and
  element membership on the latter, which `bandsContains` reproduces.
* Geographic coordinates never influence any control flow in the source,
  so the numeric type of bounding-box coordinates is irrelevant to every
  claim; `BBox` uses `Int` fields as an opaque stand-in for the floats
  produced by `featureBounds`.
* Attributes of the reader that no claim observes (`tms`, `reader`,
  `reader_options`, `stac_item`, `tileInfo`, `datageom`) are elided from
  `ResolverState`.  `logCount` counts the `log1.error` diagnostic calls.
-/

deriving instance DecidableEq for Except

/-- Left brace character, written via its code point. -/
def braceL : Char := Char.ofNat 123

/-- Right brace character, written via its code point. -/
def braceR : Char := Char.ofNat 125

/-- Single-quote character, used by Python `str` of a tuple of strings. -/
def quoteCh : Char := Char.ofNat 39

/-- Scene metadata mapping (`sceneid.scene_metadata` in the source): a
finite string-keyed dictionary with string values. -/
abbrev Metadata := List (String × String)

/-- Dictionary lookup, as Python `d[k]` / keyword-argument lookup does. -/
def mdLookup (md : Metadata) (k : String) : Option String :=
  match md with
  | [] => none
  | (k2, v) :: rest => if k2 == k then some v else mdLookup rest k

/-- A lexed token of a `str.format` template: a literal character or a
`\x7bfield\x7d` placeholder name. -/
inductive Tok
  | lit (c : Char)
  | field (name : String)
deriving DecidableEq

/-- Lexer for the `str.format` template subset used by the source
templates.  The second argument is `none` outside a placeholder and
`some acc` (the accumulated name so far) inside one; an unterminated
placeholder yields `none` (Python raises `ValueError`). -/
def lexT : List Char → Option (List Char) → Option (List Tok)
  | [], none => some []
  | [], some _ => none
  | c :: rest, none =>
      if c == braceL then lexT rest (some [])
      else (lexT rest none).map (fun ts => Tok.lit c :: ts)
  | c :: rest, some acc =>
      if c == braceR then
        (lexT rest none).map (fun ts => Tok.field (String.mk acc) :: ts)
      else lexT rest (some (acc ++ [c]))

/-- Lex a whole template string. -/
def lexTmpl (s : String) : Option (List Tok) := lexT s.data none

/-- Failures of Python `str.format`: a `KeyError` naming the first missing
field (fields are substituted left to right), or a `ValueError` for a
malformed template. -/
inductive FmtErr
  | keyError (k : String)
  | valueError
deriving DecidableEq

/-- Render a lexed template against a metadata mapping, left to right. -/
def renderToks (md : Metadata) : List Tok → Except FmtErr String
  | [] => Except.ok ""
  | Tok.lit c :: ts =>
      (renderToks md ts).map (fun s => String.singleton c ++ s)
  | Tok.field k :: ts =>
      match mdLookup md k with
      | none => Except.error (FmtErr.keyError k)
      | some v => (renderToks md ts).map (fun s => v ++ s)

/-- Python `tmpl.format(**md)` for the template subset used in the source. -/
def pyFormat (tmpl : String) (md : Metadata) : Except FmtErr String :=
  match lexTmpl tmpl with
  | none => Except.error FmtErr.valueError
  | some ts => renderToks md ts

/-- Boolean check that `n` leads (is an initial run of) `h`. -/
def chkLead : List Char → List Char → Bool
  | [], _ => true
  | _ :: _, [] => false
  | a :: as, b :: bs => a == b && chkLead as bs

/-- Boolean substring check (`n in h` for Python strings). -/
def chkSub (n : List Char) : List Char → Bool
  | [] => chkLead n []
  | c :: t => chkLead n (c :: t) || chkSub n t

/-- String-level substring check. -/
def chkSubStr (n h : String) : Bool := chkSub n.data h.data

/-- Number of positions of `h` (including the final empty position) at
which `n` matches; for nonempty `n` this is the number of occurrences of
`n` in `h`. -/
def countL (n : List Char) : List Char → Nat
  | [] => if chkLead n [] then 1 else 0
  | c :: t => (if chkLead n (c :: t) then 1 else 0) + countL n t

/-- String-level occurrence count. -/
def countSub (n h : String) : Nat := countL n.data h.data

/-- The unused `default_l1c_bands` tuple of the source. -/
def defaultL1cBandsList : List String :=
  ["B01", "B02", "B03", "B04", "B05", "B06", "B07", "B08", "B09", "B11",
   "B12", "B8A"]

/-- The `actual_l1c_bands` tuple of the source: the constant band set the
reader installs on a fully successful sidecar fetch. -/
def actualL1cBandsList : List String := ["B03", "B04", "B08"]

/-- The dynamically-typed Python value of `self.bands`: either a string
(the source assigns `""`) or a tuple of band codes. -/
inductive BandsVal
  | str (s : String)
  | tup (l : List String)
deriving DecidableEq

/-- Python `band in self.bands`: substring search when `self.bands` is a
string, element membership when it is a tuple. -/
def bandsContains : BandsVal → String → Bool
  | BandsVal.str s, b => chkSubStr b s
  | BandsVal.tup l, b => l.contains b

/-- Python emptiness (`len(x) == 0`) of the `self.bands` value. -/
def bandsEmpty : BandsVal → Bool
  | BandsVal.str s => s.data.isEmpty
  | BandsVal.tup l => l.isEmpty

/-- Python `repr` of one of our band strings (none contains a quote). -/
def pyReprStr (s : String) : String :=
  String.singleton quoteCh ++ s ++ String.singleton quoteCh

/-- Python `str` of a tuple of strings, e.g. a three-element tuple renders
with parentheses, single quotes and comma-space separators. -/
def pyStrTuple (l : List String) : String :=
  match l with
  | [x] => "(" ++ pyReprStr x ++ ",)"
  | _ => "(" ++ String.intercalate ", " (l.map pyReprStr) ++ ")"

/-- Python `str` of the `self.bands` value, as interpolated into the
`InvalidBandName` message by the f-string of the source. -/
def pyStrOfBands : BandsVal → String
  | BandsVal.str s => s
  | BandsVal.tup l => pyStrTuple l

/-- Bounding box computed by `featureBounds`.  No claim observes the
numeric values, so integer coordinates stand in for floats. -/
structure BBox where
  west : Int
  south : Int
  east : Int
  north : Int
deriving DecidableEq

/-- Coordinate reference system value of `self.crs`: the `WGS84_CRS`
default or the result of `CRS.from_user_input` on a declared name. -/
inductive CrsVal
  | wgs84
  | fromUser (name : String)
deriving DecidableEq

/-- Outcome of the external-world part of the `try` block of
`__attrs_post_init__` (fetch, JSON parse, key extraction, bounds
computation, CRS parse); see the module docstring. -/
inductive FetchOutcome
  | failEarly
  | failAfterBounds (b : BBox)
  | success (b : BBox) (crsName : String)
deriving DecidableEq

/-- Whether the whole sidecar fetch-and-parse pipeline succeeded. -/
def fetchSucceeded : FetchOutcome → Bool
  | FetchOutcome.success _ _ => true
  | _ => false

/-- State of a constructed `S2L2ACOGReaderFF` (claim-relevant attributes
only).  `bounds = none` models the attribute never having been assigned
(accessing it raises `AttributeError` in Python). -/
structure ResolverState where
  scene_params : Metadata
  hostname : String
  storTmpl : String
  minzoom : Nat
  maxzoom : Nat
  bands : BandsVal
  crs : CrsVal
  bounds : Option BBox
  logCount : Nat
deriving DecidableEq

/-- Errors escaping `__attrs_post_init__`: the `KeyError` of
`self.prefix.format(**self.scene_params)` for a missing placeholder field
(the spec's `MissingMetadataField`), or a `ValueError` for a malformed
template. -/
inductive ConstructErr
  | missingMetadataField (k : String)
  | templateError
deriving DecidableEq

/-- The class-level `_scheme = "s3"` of the source. -/
def schemeStr : String := "s3"

/-- The default `hostname` attribute of the source. -/
def defaultHostname : String := "sn-satellite"

/-- The default `prefix` template attribute of the source. -/
def defaultTmpl : String :=
  "s2_{acquisitionYear}_{acquisitionMonth}/{_utm}{lat}{sq},{acquisitionYear}-{acquisitionMonth}-{acquisitionDay},{num}"

/-- `S2L2ACOGReaderFF.__attrs_post_init__`: format the storage path from
the metadata (a missing field raises out of the constructor), then set the
defaults `bands = ""`, `crs = WGS84_CRS`, and run the `try` block whose
external outcome is `fetch`; any failure inside it is swallowed and one
diagnostic is logged, leaving whatever was already assigned. -/
def attrsPostInit (hostname storTmpl : String) (md : Metadata)
    (fetch : FetchOutcome) : Except ConstructErr ResolverState :=
  match pyFormat storTmpl md with
  | Except.error (FmtErr.keyError k) =>
      Except.error (ConstructErr.missingMetadataField k)
  | Except.error FmtErr.valueError => Except.error ConstructErr.templateError
  | Except.ok _ =>
      match fetch with
      | FetchOutcome.failEarly =>
          Except.ok ⟨md, hostname, storTmpl, 8, 14, BandsVal.str "",
            CrsVal.wgs84, none, 1⟩
      | FetchOutcome.failAfterBounds b =>
          Except.ok ⟨md, hostname, storTmpl, 8, 14, BandsVal.str "",
            CrsVal.wgs84, some b, 1⟩
      | FetchOutcome.success b c =>
          Except.ok ⟨md, hostname, storTmpl, 8, 14,
            BandsVal.tup actualL1cBandsList, CrsVal.fromUser c, some b, 0⟩

/-- Errors of `_get_band_url`: the `InvalidBandName` raise with its
message, the `KeyError`/`ValueError` of the inner `format` call, and the
`IndexError` that `band[-1]` would raise on an empty string (unreachable
behind the early return). -/
inductive BandErr
  | invalidBandName (msg : String)
  | keyError (k : String)
  | templateError
  | indexError
deriving DecidableEq

/-- The normalization line `band = band if len(band) == 3 else
f"B0\x7bband[-1]\x7d"`; `none` models the `IndexError` of `band[-1]` on an
empty string. -/
def pyNormalize (band : String) : Option String :=
  if band.length = 3 then some band
  else
    match band.data.getLast? with
    | some c => some ("B0".push c)
    | none => none

/-- The `InvalidBandName` message of the source f-string. -/
def invalidBandMsg (band : String) (bv : BandsVal) : String :=
  band ++ " is not valid.\nValid bands: " ++ pyStrOfBands bv

/-- The part of the result URL before the band code:
`"s3" + "://" + hostname + "/" + formattedStorePath + "/"`. -/
def leadPart (hostname p : String) : String :=
  schemeStr ++ "://" ++ hostname ++ "/" ++ p ++ "/"

/-- The full result URL of `_get_band_url`, exactly the f-string
`f"..."` of the source spelled as explicit concatenation. -/
def urlStr (hostname p band : String) : String :=
  leadPart hostname p ++ band ++ ".tif"

/-- `S2L2ACOGReaderFF._get_band_url`: early-return `"hej"` on the empty
label, normalize, check membership in `self.bands`, then re-format the
storage path and build the URL. -/
def getBandUrl (st : ResolverState) (band : String) : Except BandErr String :=
  if band = "" then Except.ok "hej"
  else
    match pyNormalize band with
    | none => Except.error BandErr.indexError
    | some nb =>
        if bandsContains st.bands nb then
          match pyFormat st.storTmpl st.scene_params with
          | Except.ok p => Except.ok (urlStr st.hostname p nb)
          | Except.error (FmtErr.keyError k) => Except.error (BandErr.keyError k)
          | Except.error FmtErr.valueError => Except.error BandErr.templateError
        else Except.error (BandErr.invalidBandName (invalidBandMsg nb st.bands))

/-- Errors escaping the `S2COGReaderFF` factory: the `KeyError` of
`scene_params["processingLevel"]`, or the `Exception(f"... is not
supported")` raised for an unsupported level (the spec's
`UnsupportedProcessingLevel`). -/
inductive FactoryErr
  | keyError (k : String)
  | unsupportedProcessingLevel (msg : String)
deriving DecidableEq

/-- Non-raising results of the `S2COGReaderFF` factory: a constructed
reader, or the literal string `"Strange"` that the source returns when the
constructor raised inside the `try`. -/
inductive FactoryOut
  | reader (st : ResolverState)
  | strange
deriving DecidableEq

/-- The `S2COGReaderFF` factory function of the source. -/
def S2COGReaderFF (hostname storTmpl : String) (md : Metadata)
    (fetch : FetchOutcome) : Except FactoryErr FactoryOut :=
  match mdLookup md "processingLevel" with
  | none => Except.error (FactoryErr.keyError "processingLevel")
  | some level =>
      if level == "L2A" || level == "L1C" then
        match attrsPostInit hostname storTmpl md fetch with
        | Except.ok st => Except.ok (FactoryOut.reader st)
        | Except.error _ => Except.ok FactoryOut.strange
      else
        Except.error
          (FactoryErr.unsupportedProcessingLevel (level ++ " is not supported"))

/-- Modelled from the spec: the "whole-earth extent" default that the
specification claims `bounds` takes on fetch failure.  No such default
exists in the source; this value exists only to state that comparison. -/
def specWholeEarthExtent : BBox := ⟨-180, -90, 180, 90⟩

/-- The concrete scene metadata of the spec's scenario (section 8),
with the `_utm` key the source template actually uses. -/
def mdScenario : Metadata :=
  [("processingLevel", "L2A"), ("acquisitionYear", "2020"),
   ("acquisitionMonth", "02"), ("_utm", "29"), ("lat", "R"), ("sq", "KH"),
   ("acquisitionDay", "19"), ("num", "0")]

/-- A resolver state as the degraded branch of `attrsPostInit` produces it
for the scenario metadata. -/
def stateDegraded : ResolverState :=
  ⟨mdScenario, "sn-satellite", defaultTmpl, 8, 14, BandsVal.str "",
    CrsVal.wgs84, none, 1⟩

/-- A resolver state as the success branch of `attrsPostInit` produces it
for the scenario metadata. -/
def stateSuccess : ResolverState :=
  ⟨mdScenario, "sn-satellite", defaultTmpl, 8, 14,
    BandsVal.tup actualL1cBandsList, CrsVal.fromUser "EPSG:32629",
    some ⟨0, 0, 1, 1⟩, 0⟩

/-- The value of `bounds` a degraded construction leaves behind: unset on
an early failure, the already-extracted box when the failure happened
after the bounds assignment. -/
def degradedBounds : FetchOutcome → Option BBox
  | FetchOutcome.failEarly => none
  | FetchOutcome.failAfterBounds b => some b
  | FetchOutcome.success b _ => some b

theorem strData (a b : String) : (a ++ b).data = a.data ++ b.data := by
  cases a
  cases b
  rfl

theorem chkLead_append_self (n b : List Char) : chkLead n (n ++ b) = true := by
  induction n with
  | nil => rfl
  | cons c t ih => simp [chkLead, ih]

theorem chkLead_self (n : List Char) : chkLead n n = true := by
  have h := chkLead_append_self n []
  rwa [List.append_nil] at h

theorem chkSub_append_self (x a : List Char) : chkSub x (a ++ x) = true := by
  induction a with
  | nil =>
      simp only [List.nil_append]
      cases x with
      | nil => rfl
      | cons c t => simp [chkSub, chkLead_self]
  | cons c t ih => simp [chkSub, ih]

theorem chkSub_self_append (x r : List Char) : chkSub x (x ++ r) = true := by
  cases x with
  | nil =>
      cases r with
      | nil => rfl
      | cons c t => simp [chkSub, chkLead]
  | cons c t =>
      show (chkLead (c :: t) ((c :: t) ++ r) || chkSub (c :: t) (t ++ r)) = true
      rw [chkLead_append_self]
      rfl

theorem countL_append_zero (n : List Char) : ∀ (a r : List Char),
    (∀ t, t ≠ [] → (∃ u, u ++ t = a) → chkLead n (t ++ r) = false) →
    countL n (a ++ r) = countL n r := by
  intro a
  induction a with
  | nil => intro r _h; rfl
  | cons c t ih =>
      intro r h
      have h1 : chkLead n ((c :: t) ++ r) = false :=
        h (c :: t) (List.cons_ne_nil c t) ⟨[], rfl⟩
      have h2 : countL n ((c :: t) ++ r) =
          (if chkLead n ((c :: t) ++ r) then 1 else 0) + countL n (t ++ r) := rfl
      rw [h2]
      simp only [h1, Bool.false_eq_true, if_false, Nat.zero_add]
      exact ih r (fun t2 ht2 hu =>
        h t2 ht2 (hu.elim (fun u hu2 => ⟨c :: u, by rw [← hu2]; rfl⟩)))

theorem chkLead_mono (n : List Char) : ∀ (t r : List Char),
    chkLead n (t ++ r) = true → n.length ≤ t.length → chkLead n t = true := by
  induction n with
  | nil => intro t r _ _; rfl
  | cons c n2 ih =>
      intro t r h hlen
      cases t with
      | nil => simp at hlen
      | cons d t2 =>
          simp only [chkLead, List.cons_append, Bool.and_eq_true] at h ⊢
          exact ⟨h.1, ih t2 r h.2 (Nat.le_of_succ_le_succ hlen)⟩

theorem countL_pos (n : List Char) : ∀ (u t : List Char),
    t ≠ [] → chkLead n t = true → 0 < countL n (u ++ t) := by
  intro u
  induction u with
  | nil =>
      intro t ht h
      cases t with
      | nil => exact absurd rfl ht
      | cons c t2 =>
          show 0 < (if chkLead n (c :: t2) then 1 else 0) + countL n t2
          simp [h]
  | cons c u2 ih =>
      intro t ht h
      have h2 : 0 < countL n (u2 ++ t) := ih t ht h
      show 0 < (if chkLead n (c :: (u2 ++ t)) then 1 else 0) + countL n (u2 ++ t)
      omega

theorem chkLead_take : ∀ (t n r : List Char),
    chkLead n (t ++ r) = true → t.length ≤ n.length → chkLead t n = true := by
  intro t
  induction t with
  | nil => intro n r _ _; rfl
  | cons c t2 ih =>
      intro n r h hlen
      cases n with
      | nil => simp at hlen
      | cons d n2 =>
          simp only [chkLead, List.cons_append, Bool.and_eq_true,
            beq_iff_eq] at h ⊢
          exact ⟨h.1.symm, ih n2 r h.2 (Nat.le_of_succ_le_succ hlen)⟩

theorem chkLead_mem : ∀ (t n : List Char), chkLead t n = true →
    ∀ x, x ∈ t → x ∈ n := by
  intro t
  induction t with
  | nil => intro n _ x hx; exact absurd hx (List.not_mem_nil x)
  | cons c t2 ih =>
      intro n h x hx
      cases n with
      | nil => exact absurd h (by simp [chkLead])
      | cons d n2 =>
          simp only [chkLead, Bool.and_eq_true, beq_iff_eq] at h
          rcases List.mem_cons.mp hx with h2 | h2
          · rw [h2, h.1]; exact List.mem_cons_self d n2
          · exact List.mem_cons_of_mem d (ih n2 h.2 x h2)

theorem snocEq : ∀ (as bs : List Char) (x y : Char),
    as ++ [x] = bs ++ [y] → x = y
  | [], [], x, y, h => by injection h
  | [], b :: bs2, x, y, h => by
      injection h with h1 h2
      cases bs2 <;> simp at h2
  | a :: as2, [], x, y, h => by
      injection h with h1 h2
      cases as2 <;> simp at h2
  | a :: as2, b :: bs2, x, y, h => by
      injection h with h1 h2
      exact snocEq as2 bs2 x y h2

theorem lastMemSlash (u t q : List Char) (ht : t ≠ [])
    (hu : u ++ t = q ++ [Char.ofNat 47]) : Char.ofNat 47 ∈ t := by
  rcases List.eq_nil_or_concat t with h | ⟨t2, x, hx⟩
  · exact absurd h ht
  · rw [List.concat_eq_append] at hx
    subst hx
    have h2 : (u ++ t2) ++ [x] = q ++ [Char.ofNat 47] := by
      rw [List.append_assoc]; exact hu
    have hx2 : x = Char.ofNat 47 := snocEq _ _ _ _ h2
    subst hx2
    simp

theorem noLeadAt (n a r : List Char) (_hn : n ≠ [])
    (hz : countL n a = 0) (hsl : Char.ofNat 47 ∉ n)
    (hq : ∃ q, a = q ++ [Char.ofNat 47]) :
    ∀ t, t ≠ [] → (∃ u, u ++ t = a) → chkLead n (t ++ r) = false := by
  intro t ht hu
  rcases hu with ⟨u, hu⟩
  by_contra hc
  rw [Bool.not_eq_false] at hc
  rcases Nat.le_total n.length t.length with hle | hle
  · have h1 : chkLead n t = true := chkLead_mono n t r hc hle
    have h2 : 0 < countL n (u ++ t) := countL_pos n u t ht h1
    rw [hu] at h2
    omega
  · have h1 : chkLead t n = true := chkLead_take t n r hc hle
    rcases hq with ⟨q, hq⟩
    have h2 : Char.ofNat 47 ∈ t := lastMemSlash u t q ht (hu.trans hq)
    exact hsl (chkLead_mem t n h1 _ h2)

theorem countCat (n a s : List Char) (hn : n ≠ [])
    (hz : countL n a = 0) (hsl : Char.ofNat 47 ∉ n)
    (hq : ∃ q, a = q ++ [Char.ofNat 47]) :
    countL n (a ++ (n ++ s)) = countL n (n ++ s) :=
  countL_append_zero n a (n ++ s) (noLeadAt n a (n ++ s) hn hz hsl hq)

theorem urlStr_data (h p n : String) :
    (urlStr h p n).data = (leadPart h p).data ++ (n.data ++ ".tif".data) := by
  simp [urlStr, strData, List.append_assoc]

theorem leadPart_snoc (h p : String) :
    ∃ q, (leadPart h p).data = q ++ [Char.ofNat 47] := by
  refine ⟨(schemeStr ++ "://" ++ h ++ "/" ++ p).data, ?_⟩
  show ((schemeStr ++ "://" ++ h ++ "/" ++ p) ++ "/").data = _
  rw [strData]

theorem countUrl (host p nb : String) (hnb : nb.data ≠ [])
    (hsl : Char.ofNat 47 ∉ nb.data)
    (hno : countSub nb (leadPart host p) = 0)
    (hone : countL nb.data (nb.data ++ ".tif".data) = 1) :
    countSub nb (urlStr host p nb) = 1 := by
  show countL nb.data (urlStr host p nb).data = 1
  rw [urlStr_data]
  rw [countCat nb.data (leadPart host p).data ".tif".data hnb hno hsl
    (leadPart_snoc host p)]
  exact hone

theorem pyNormalize_ne_empty (b nb : String) (hb : pyNormalize b = some nb) :
    b ≠ "" := by
  intro h
  subst h
  rw [show pyNormalize "" = none from by decide] at hb
  nomatch hb

/-- C7: band-label normalization to the canonical three-character form is
applied before membership validation, and a numeric-only single-digit
label is zero-padded with a `B0` prefix before validation; consequently,
on any resolver state, resolving the label `"4"` and resolving the label
`"B04"` return identical results. -/
theorem claim7_normalize_before_validate (st : ResolverState) :
    getBandUrl st "4" = getBandUrl st "B04" := by
  have h : pyNormalize "4" = pyNormalize "B04" := by decide
  unfold getBandUrl
  rw [if_neg (by decide : ¬ ("4" : String) = ""),
    if_neg (by decide : ¬ ("B04" : String) = ""), h]

/-- C9: for the empty-string band label, `_get_band_url` returns the
literal string `"hej"` on every resolver state (degraded ones included),
without raising and without consulting `availableBands`. -/
theorem claim9_empty_label_hej (st : ResolverState) :
    getBandUrl st "" = Except.ok "hej" := by
  unfold getBandUrl
  rw [if_pos rfl]

/-- C10: for every non-empty band label whose length is not exactly three
characters, normalization keeps only the final character, producing `B0`
followed by that character, and band resolution then behaves exactly as if
that normalized form had been passed (so validation is performed on the
normalized form). -/
theorem claim10_normalization_last_char (st : ResolverState) (b : String)
    (c : Char) (hlen : b.length ≠ 3) (hlast : b.data.getLast? = some c) :
    pyNormalize b = some ("B0".push c) ∧
    getBandUrl st b = getBandUrl st ("B0".push c) := by
  have hbne : b ≠ "" := by
    intro h
    subst h
    nomatch hlast
  have hn1 : pyNormalize b = some ("B0".push c) := by
    unfold pyNormalize
    rw [if_neg hlen, hlast]
  have hlen2 : ("B0".push c).length = 3 := rfl
  have hne2 : ("B0".push c) ≠ "" := by
    intro h
    have h2 := congrArg String.length h
    rw [hlen2] at h2
    nomatch h2
  have hn2 : pyNormalize ("B0".push c) = some ("B0".push c) := by
    unfold pyNormalize
    rw [if_pos hlen2]
  refine ⟨hn1, ?_⟩
  unfold getBandUrl
  rw [if_neg hbne, if_neg hne2, hn1, hn2]

/-- C10 witness: the two-character label `"8A"` normalizes to `"B0A"` and
resolves exactly as `"B0A"` does (on the successful scenario state). -/
theorem claim10_witness :
    pyNormalize "8A" = some ("B0".push (Char.ofNat 65)) ∧
    getBandUrl stateSuccess "8A" =
      getBandUrl stateSuccess ("B0".push (Char.ofNat 65)) :=
  claim10_normalization_last_char stateSuccess "8A" (Char.ofNat 65)
    (by decide) (by decide)

/-- C3: for every band label that has a normalized form and whose
normalized form is not a member of the current `self.bands` value (which
includes every non-empty label when the resolver is degraded),
`_get_band_url` fails with `InvalidBandName`, and the error message
contains the rendering of the current valid-band value, enumerating the
valid set. -/
theorem claim3_invalid_band (st : ResolverState) (b nb : String)
    (hb : pyNormalize b = some nb)
    (hmem : bandsContains st.bands nb = false) :
    getBandUrl st b =
      Except.error (BandErr.invalidBandName (invalidBandMsg nb st.bands)) ∧
    chkSubStr (pyStrOfBands st.bands) (invalidBandMsg nb st.bands) = true := by
  have hbne : b ≠ "" := pyNormalize_ne_empty b nb hb
  constructor
  · unfold getBandUrl
    rw [if_neg hbne, hb]
    show (if bandsContains st.bands nb then _ else _) = _
    rw [hmem]
    simp
  · show chkSub (pyStrOfBands st.bands).data
      ((nb ++ " is not valid.\nValid bands: " ++ pyStrOfBands st.bands)).data
        = true
    rw [show ((nb ++ " is not valid.\nValid bands: ") ++ pyStrOfBands st.bands).data
      = (nb ++ " is not valid.\nValid bands: ").data ++ (pyStrOfBands st.bands).data
      from strData _ _]
    exact chkSub_append_self _ _

/-- C3 witness: on a degraded resolver (empty band value), the valid label
`"B99"` is rejected with `InvalidBandName` and the message carries the
(empty) rendering of the valid set. -/
theorem claim3_witness :
    getBandUrl stateDegraded "B99" =
      Except.error
        (BandErr.invalidBandName (invalidBandMsg "B99" stateDegraded.bands)) ∧
    chkSubStr (pyStrOfBands stateDegraded.bands)
      (invalidBandMsg "B99" stateDegraded.bands) = true :=
  claim3_invalid_band stateDegraded "B99" "B99" (by decide) (by decide)

/-- Scenario metadata with the sequence-number field set to a string that
collides with a band code; nothing in the source restricts metadata
values, so this is a constructible input. -/
def mdInjected : Metadata :=
  [("processingLevel", "L2A"), ("acquisitionYear", "2020"),
   ("acquisitionMonth", "02"), ("_utm", "29"), ("lat", "R"), ("sq", "KH"),
   ("acquisitionDay", "19"), ("num", "B04")]

/-- C5 counterexample: on a successfully constructed resolver whose
metadata `num` field is the string `"B04"`, resolving band `"B04"`
returns a URL that contains the normalized band code twice, not exactly
once, refuting the unqualified exactly-once part of the claim. -/
theorem claim5_counterexample :
    (attrsPostInit "sn-satellite" defaultTmpl mdInjected
        (FetchOutcome.success ⟨0, 0, 1, 1⟩ "EPSG:32629")).map
      (fun st => getBandUrl st "B04") =
      Except.ok (Except.ok
        "s3://sn-satellite/s2_2020_02/29RKH,2020-02-19,B04/B04.tif") ∧
    countSub "B04"
      "s3://sn-satellite/s2_2020_02/29RKH,2020-02-19,B04/B04.tif" = 2 := by
  constructor
  · decide
  · decide

/-- C5 as amended: for every band label whose normalized form is in the
installed band tuple, `_get_band_url` returns exactly the string formed by
the storage scheme, the hostname, the formatted storage path and
`/{normalizedBand}.tif`; and whenever the leading part of that URL (scheme,
hostname and formatted path, as with ordinary Sentinel-2 metadata) does
not itself contain the band code, the URL contains the normalized band
code exactly once.  The call is a pure function of the constructed state,
so it performs no network access. -/
theorem claim5_amended (st : ResolverState) (b nb p : String)
    (hb : pyNormalize b = some nb)
    (hbv : st.bands = BandsVal.tup actualL1cBandsList)
    (hmem : nb ∈ actualL1cBandsList)
    (hfmt : pyFormat st.storTmpl st.scene_params = Except.ok p)
    (hno : countSub nb (leadPart st.hostname p) = 0) :
    getBandUrl st b = Except.ok (urlStr st.hostname p nb) ∧
    countSub nb (urlStr st.hostname p nb) = 1 := by
  have hbne : b ≠ "" := pyNormalize_ne_empty b nb hb
  have hmem2 : nb = "B03" ∨ nb = "B04" ∨ nb = "B08" := by
    simpa [actualL1cBandsList] using hmem
  have hcont : bandsContains st.bands nb = true := by
    rw [hbv]
    show actualL1cBandsList.contains nb = true
    rcases hmem2 with rfl | rfl | rfl <;> decide
  constructor
  · unfold getBandUrl
    rw [if_neg hbne, hb]
    show (if bandsContains st.bands nb then _ else _) = _
    rw [hcont]
    show (match pyFormat st.storTmpl st.scene_params with
      | Except.ok p => Except.ok (urlStr st.hostname p nb)
      | Except.error (FmtErr.keyError k) => Except.error (BandErr.keyError k)
      | Except.error FmtErr.valueError =>
          Except.error BandErr.templateError) = _
    rw [hfmt]
  · rcases hmem2 with rfl | rfl | rfl <;>
      exact countUrl st.hostname p _ (by decide) (by decide) hno (by decide)

/-- C5 witness: on the successful scenario state, `"4"` resolves to the
spec's concrete URL and the band code occurs in it exactly once. -/
theorem claim5_witness :
    getBandUrl stateSuccess "4" =
      Except.ok (urlStr stateSuccess.hostname
        "s2_2020_02/29RKH,2020-02-19,0" "B04") ∧
    countSub "B04" (urlStr stateSuccess.hostname
      "s2_2020_02/29RKH,2020-02-19,0" "B04") = 1 :=
  claim5_amended stateSuccess "4" "B04" "s2_2020_02/29RKH,2020-02-19,0"
    (by decide) rfl (by decide) (by decide) (by decide)

/-- C1 counterexample: for the scenario metadata with a fetch that fails
as a network error, construction succeeds but the `bounds` attribute is
left unassigned (`none`), not set to the whole-earth extent the claim
asserts. -/
theorem claim1_counterexample :
    (attrsPostInit "sn-satellite" defaultTmpl mdScenario
        FetchOutcome.failEarly).map ResolverState.bounds = Except.ok none ∧
    Except.ok (some specWholeEarthExtent) ≠
      (attrsPostInit "sn-satellite" defaultTmpl mdScenario
        FetchOutcome.failEarly).map ResolverState.bounds := by
  constructor
  · decide
  · decide

/-- C1 as amended: for every metadata whose path formatting succeeds and
every failing fetch outcome, construction succeeds without raising,
`availableBands` is empty, `crs` is the geographic default, one diagnostic
event is recorded, and `bounds` is not given a whole-earth default: it is
left unassigned when the failure precedes the geometry extraction and
otherwise keeps the already-extracted box. -/
theorem claim1_amended (hostname tmpl : String) (md : Metadata) (p : String)
    (f : FetchOutcome) (hfmt : pyFormat tmpl md = Except.ok p)
    (hfail : fetchSucceeded f = false) :
    ∃ st, attrsPostInit hostname tmpl md f = Except.ok st ∧
      bandsEmpty st.bands = true ∧ st.crs = CrsVal.wgs84 ∧
      st.logCount = 1 ∧ st.bounds = degradedBounds f := by
  cases f with
  | failEarly =>
      refine ⟨⟨md, hostname, tmpl, 8, 14, BandsVal.str "", CrsVal.wgs84,
        none, 1⟩, ?_, rfl, rfl, rfl, rfl⟩
      unfold attrsPostInit
      rw [hfmt]
  | failAfterBounds b =>
      refine ⟨⟨md, hostname, tmpl, 8, 14, BandsVal.str "", CrsVal.wgs84,
        some b, 1⟩, ?_, rfl, rfl, rfl, rfl⟩
      unfold attrsPostInit
      rw [hfmt]
  | success b c => nomatch hfail

/-- C1 witness: the amended statement instantiated at the scenario
metadata and an early fetch failure. -/
theorem claim1_witness :
    ∃ st, attrsPostInit "sn-satellite" defaultTmpl mdScenario
        FetchOutcome.failEarly = Except.ok st ∧
      bandsEmpty st.bands = true ∧ st.crs = CrsVal.wgs84 ∧
      st.logCount = 1 ∧ st.bounds = degradedBounds FetchOutcome.failEarly :=
  claim1_amended "sn-satellite" defaultTmpl mdScenario
    "s2_2020_02/29RKH,2020-02-19,0" FetchOutcome.failEarly (by decide) rfl

/-- C8: for every constructed resolver, the installed band value is
non-empty exactly when the whole sidecar fetch-and-parse pipeline
succeeded, and on success it is the fixed constant tuple
`actual_l1c_bands` — independent of the fetched document's bounds and CRS
content, which are arbitrary here. -/
theorem claim8_bands_iff (hostname tmpl : String) (md : Metadata)
    (f : FetchOutcome) (st : ResolverState)
    (hok : attrsPostInit hostname tmpl md f = Except.ok st) :
    (bandsEmpty st.bands = false ↔ fetchSucceeded f = true) ∧
    (fetchSucceeded f = true →
      st.bands = BandsVal.tup actualL1cBandsList) := by
  unfold attrsPostInit at hok
  cases hfmt : pyFormat tmpl md with
  | error e => rw [hfmt] at hok; cases e <;> nomatch hok
  | ok p =>
      rw [hfmt] at hok
      cases f with
      | failEarly =>
          injection hok with h
          subst h
          show (bandsEmpty (BandsVal.str "") = false ↔
              fetchSucceeded FetchOutcome.failEarly = true) ∧
            (fetchSucceeded FetchOutcome.failEarly = true →
              BandsVal.str "" = BandsVal.tup actualL1cBandsList)
          decide
      | failAfterBounds b =>
          injection hok with h
          subst h
          show (bandsEmpty (BandsVal.str "") = false ↔ false = true) ∧
            (false = true →
              BandsVal.str "" = BandsVal.tup actualL1cBandsList)
          decide
      | success b c =>
          injection hok with h
          subst h
          show (bandsEmpty (BandsVal.tup actualL1cBandsList) = false ↔
              true = true) ∧
            (true = true →
              BandsVal.tup actualL1cBandsList =
                BandsVal.tup actualL1cBandsList)
          decide

/-- C8 witness: instantiated at the scenario metadata and a successful
fetch producing the `stateSuccess` record. -/
theorem claim8_witness :
    (bandsEmpty stateSuccess.bands = false ↔
      fetchSucceeded (FetchOutcome.success ⟨0, 0, 1, 1⟩ "EPSG:32629")
        = true) ∧
    (fetchSucceeded (FetchOutcome.success ⟨0, 0, 1, 1⟩ "EPSG:32629") = true →
      stateSuccess.bands = BandsVal.tup actualL1cBandsList) :=
  claim8_bands_iff "sn-satellite" defaultTmpl mdScenario
    (FetchOutcome.success ⟨0, 0, 1, 1⟩ "EPSG:32629") stateSuccess (by decide)

/-- C6: for every metadata whose declared processing level is neither
`"L2A"` nor `"L1C"`, the factory raises the unsupported-level error whose
message reports the offending level, and never yields a constructed
reader. -/
theorem claim6_unsupported (hostname tmpl : String) (md : Metadata)
    (f : FetchOutcome) (level : String)
    (hlev : mdLookup md "processingLevel" = some level)
    (hns : (level == "L2A" || level == "L1C") = false) :
    S2COGReaderFF hostname tmpl md f =
      Except.error (FactoryErr.unsupportedProcessingLevel
        (level ++ " is not supported")) ∧
    chkSubStr level (level ++ " is not supported") = true ∧
    (∀ st, S2COGReaderFF hostname tmpl md f ≠
      Except.ok (FactoryOut.reader st)) := by
  have h1 : S2COGReaderFF hostname tmpl md f =
      Except.error (FactoryErr.unsupportedProcessingLevel
        (level ++ " is not supported")) := by
    unfold S2COGReaderFF
    rw [hlev]
    show (if (level == "L2A" || level == "L1C") = true then _ else _) = _
    rw [hns]
    simp
  refine ⟨h1, ?_, ?_⟩
  · show chkSub level.data ((level ++ " is not supported")).data = true
    rw [strData]
    exact chkSub_self_append _ _
  · intro st h2
    rw [h1] at h2
    nomatch h2

/-- C6 witness: a metadata declaring level `"L99"` is rejected with the
unsupported-level error naming `"L99"`. -/
theorem claim6_witness :
    S2COGReaderFF "sn-satellite" defaultTmpl [("processingLevel", "L99")]
        FetchOutcome.failEarly =
      Except.error (FactoryErr.unsupportedProcessingLevel
        ("L99" ++ " is not supported")) ∧
    chkSubStr "L99" ("L99" ++ " is not supported") = true ∧
    (∀ st, S2COGReaderFF "sn-satellite" defaultTmpl
        [("processingLevel", "L99")] FetchOutcome.failEarly ≠
      Except.ok (FactoryOut.reader st)) :=
  claim6_unsupported "sn-satellite" defaultTmpl [("processingLevel", "L99")]
    FetchOutcome.failEarly "L99" (by decide) (by decide)

/-- C2 (code bug): with a supported level `"L1C"` but metadata lacking the
template's fields, the factory does not raise and does not return a
reader: it returns the sentinel value modelling the Python string
`"Strange"`, so the factory's result is not always a resolver instance. -/
theorem claim2_strange_result :
    S2COGReaderFF "sn-satellite" defaultTmpl [("processingLevel", "L1C")]
      FetchOutcome.failEarly = Except.ok FactoryOut.strange ∧
    (∀ st, (Except.ok FactoryOut.strange : Except FactoryErr FactoryOut) ≠
      Except.ok (FactoryOut.reader st)) := by
  constructor
  · decide
  · intro st h
    injection h with h2
    nomatch h2

/-- C4 (code bug): constructing directly with metadata that lacks the
template field `acquisitionYear` does fail with the missing-field error,
but the factory swallows exactly that failure and converts it to the
sentinel `"Strange"` value instead of propagating it to its caller. -/
theorem claim4_swallowed :
    attrsPostInit "sn-satellite" defaultTmpl [("processingLevel", "L2A")]
      FetchOutcome.failEarly =
      Except.error (ConstructErr.missingMetadataField "acquisitionYear") ∧
    S2COGReaderFF "sn-satellite" defaultTmpl [("processingLevel", "L2A")]
      FetchOutcome.failEarly = Except.ok FactoryOut.strange := by
  constructor
  · decide
  · decide
